import Mathlib

/-!
Verification of the you-posm data-ingestion workflow (src/app.py).

The application is a straight-line workflow over a spreadsheet ledger, two
lookup worksheets and an object store.  We embed the workflow shallowly:

* pure computations (name sanitization, storage-path derivation, image-size
  computation, validation, row assembly, list/dedup/sort of lookup sheets,
  the schema-guard decision logic, configuration fallback) are translated
  directly into Lean functions;
* external effects (secret-store access, sheet appends, blob uploads) are
  represented by explicit outcome parameters: a Bool for an append that can
  fail, an `Option String` for an image upload that returns a URL or nothing,
  an `Except String String` for a secret read that can raise.  The Python
  code converts every exception on these calls into a False / None return,
  which the embedding mirrors.

Worksheets are lists of rows (lists of cell strings); the single-column
lookup sheets are lists of their data-cell strings (gspread
`get_all_records` skips the header row and yields one value per data row).
Python truthiness of strings and of `Optional[str]` is modeled explicitly.
-/

namespace YouPosm

/-- Truthiness of a Python `Optional[str]`: `None` and the empty string are
falsy, any other string is truthy. -/
def pyTruthy : Option String → Bool
  | none => false
  | some s => !s.isEmpty

/-- Character filter used in `upload_image` (app.py line 544):
`c.isalnum() or c in (' ', '-', '_')`.  Python `str.isalnum` is
Unicode-aware, so the embedding takes the alphanumeric classifier as a
parameter; the sanitization theorems quantify over the classifier and
therefore cover the one Python implements.  On ASCII characters Python
`str.isalnum` coincides with `Char.isAlphanum`. -/
def py_allowed_char (isalnum : Char → Bool) (c : Char) : Bool :=
  isalnum c || c = ' ' || c = '-' || c = '_'

/-- ASCII instance of the character filter, which agrees with the program
on ASCII characters; used for the concrete all-ASCII traces. -/
def allowed_char (c : Char) : Bool :=
  py_allowed_char (fun c => c.isAlphanum) c

/-- Python `str.strip()` on a character list: drop leading and trailing
whitespace. -/
def strip_ws (l : List Char) : List Char :=
  ((l.dropWhile Char.isWhitespace).reverse.dropWhile Char.isWhitespace).reverse

/-- Name sanitization from `upload_image` (app.py lines 544-545), for a
given alphanumeric classifier:
`"".join(c for c in name if c.isalnum() or c in (' ', '-', '_')).strip().replace(' ', '_')`.
Keep only alphanumerics, space, hyphen, underscore; strip; replace every
remaining space by an underscore. -/
def clean_name_py (isalnum : Char → Bool) (s : String) : String :=
  String.mk ((strip_ws (s.toList.filter (py_allowed_char isalnum))).map
    (fun c => if c = ' ' then '_' else c))

/-- ASCII instance of the sanitizer, used for the concrete all-ASCII
traces, on which it agrees with the program. -/
def clean_name (s : String) : String :=
  clean_name_py (fun c => c.isAlphanum) s

/-- Storage-key derivation from `upload_image` (app.py line 552), for a
given alphanumeric classifier:
`f"you-posm/{clean_store}/{clean_employee}/{date_str}/{img_type}/{timestamp}_{unique_id}.jpg"`.
The date, time-of-day and 8-hex random components are captured at upload
time; they enter the model as parameters. -/
def upload_path_py (isalnum : Char → Bool)
    (store employee date_str img_type timestamp unique_id : String) : String :=
  "you-posm/" ++ clean_name_py isalnum store ++ "/" ++ clean_name_py isalnum employee ++
    "/" ++ date_str ++ "/" ++ img_type ++ "/" ++ timestamp ++ "_" ++ unique_id ++ ".jpg"

/-- ASCII instance of the storage-key derivation, used for the concrete
all-ASCII traces. -/
def upload_path (store employee date_str img_type timestamp unique_id : String) : String :=
  upload_path_py (fun c => c.isAlphanum) store employee date_str img_type
    timestamp unique_id

/-- Resize rule from `upload_image` (app.py lines 563-575).  Python `int(x)`
on the nonnegative quotient is floor division. -/
def resize_dims (w h : Nat) : Nat × Nat :=
  if 1920 < w ∨ 1920 < h then
    if h < w then
      (1920, (1920 * h) / w)
    else
      ((1920 * w) / h, 1920)
  else
    (w, h)

/-- Upload step of `upload_image` (app.py lines 536-605).  Returns `none`
when the bucket is not connected (line 539) or when the blob upload raises
(modeled by `uploadOk = false`; the except handler at line 603 returns
None); otherwise returns the public URL built from bucket name and path
(line 600).  Failure of the public-read grant does not change the return
value (lines 586-597). -/
def upload_image (bucketConnected : Bool) (bucketName store employee img_type
    date_str timestamp unique_id : String) (uploadOk : Bool) : Option String :=
  if !bucketConnected then none
  else
    let path := upload_path store employee date_str img_type timestamp unique_id
    if uploadOk then
      some ("https://storage.googleapis.com/" ++ bucketName ++ "/" ++ path)
    else none

/-- Segmentation of a storage key at slashes, used to talk about empty path
segments. -/
def splitSlash : List Char → List (List Char)
  | [] => [[]]
  | c :: cs =>
    let rest := splitSlash cs
    if c = '/' then [] :: rest
    else (c :: rest.headD []) :: rest.tail

theorem mem_of_mem_dropWhile {α : Type} {p : α → Bool} {l : List α} {c : α}
    (h : c ∈ l.dropWhile p) : c ∈ l := by
  induction l with
  | nil => exact h
  | cons a as ih =>
    rw [List.dropWhile_cons] at h
    by_cases hp : p a = true
    · simp [hp] at h
      exact List.mem_cons_of_mem a (ih h)
    · simp [hp] at h
      simpa using h

theorem mem_of_mem_strip_ws {l : List Char} {c : Char} (h : c ∈ strip_ws l) :
    c ∈ l := by
  unfold strip_ws at h
  rw [List.mem_reverse] at h
  have h2 := mem_of_mem_dropWhile h
  rw [List.mem_reverse] at h2
  exact mem_of_mem_dropWhile h2

/-- Python `str.strip()` on a string value, as used for names throughout
`app.py` (whitespace on both ends removed). -/
def py_strip (s : String) : String :=
  String.mk (strip_ws s.toList)

/-- Embedding of `add_store_to_sheet` (app.py lines 492-512).  The lookup
sheet is its list of data-cell names; `writeOk` is the outcome of the
`append_row` call (an exception yields False through the except handler).
A row matches when its stripped text equals the stripped candidate, exact
and case-sensitive; when no row matches, the stripped name is appended. -/
def add_store_to_sheet (sheet : List String) (store_name : String)
    (writeOk : Bool) : Bool × List String :=
  if sheet.any (fun r => py_strip r = py_strip store_name) then
    (true, sheet)
  else if writeOk then
    (true, sheet ++ [py_strip store_name])
  else
    (false, sheet)

/-- Embedding of `add_employee_to_sheet` (app.py lines 514-534): identical
logic on the employee sheet; the `store_name` argument is accepted and
ignored, as in the source. -/
def add_employee_to_sheet (sheet : List String) (store_name employee_name : String)
    (writeOk : Bool) : Bool × List String :=
  if sheet.any (fun r => py_strip r = py_strip employee_name) then
    (true, sheet)
  else if writeOk then
    (true, sheet ++ [py_strip employee_name])
  else
    (false, sheet)

/-- Number of rows of a lookup sheet whose stripped text matches the
stripped name. -/
def count_matching (sheet : List String) (name : String) : Nat :=
  sheet.countP (fun r => py_strip r = py_strip name)

/-- First-occurrence deduplication, the order pandas `Series.unique`
uses (app.py lines 438 and 459). -/
def uniqueFirstAux (seen : List String) : List String → List String
  | [] => []
  | x :: xs =>
    if x ∈ seen then uniqueFirstAux seen xs
    else x :: uniqueFirstAux (x :: seen) xs

def uniqueFirst (l : List String) : List String :=
  uniqueFirstAux [] l

/-- Embedding of `get_stores_from_store_sheet` (app.py lines 446-466):
`sorted([s for s in df.Store_Name.dropna().unique().tolist() if s])` —
deduplicate keeping first occurrences, drop falsy (empty) strings, sort
ascending.  Cell values coming from `get_all_records` are strings, so
`dropna` is the identity; Python `sorted` and `List.insertionSort` both
implement a stable ascending sort by code points. -/
def get_stores_from_store_sheet (records : List String) : List String :=
  List.insertionSort (· ≤ ·) ((uniqueFirst records).filter (fun s => s ≠ ""))

/-- Embedding of `get_employee_data` (app.py lines 425-444): stores from the
store sheet and employees from the employee sheet, with the same
dedup-filter-sort treatment for the employee names. -/
def get_employee_data (storeRecords employeeRecords : List String) :
    List String × List String :=
  (get_stores_from_store_sheet storeRecords,
   List.insertionSort (· ≤ ·) ((uniqueFirst employeeRecords).filter (fun s => s ≠ "")))

theorem dropWhile_head_not {α : Type} (p : α → Bool) (l : List α) {c : α}
    (h : (l.dropWhile p).head? = some c) : p c = false := by
  induction l with
  | nil => exact absurd h (by simp)
  | cons a as ih =>
    rw [List.dropWhile_cons] at h
    by_cases hp : p a = true
    · rw [if_pos hp] at h
      exact ih h
    · rw [if_neg hp] at h
      have : a = c := by simpa using h
      rw [← this]
      simpa using hp

theorem dropWhile_eq_self_of_head {α : Type} (p : α → Bool) (l : List α)
    (h : ∀ c, l.head? = some c → p c = false) : l.dropWhile p = l := by
  cases l with
  | nil => rfl
  | cons a as =>
    rw [List.dropWhile_cons, if_neg]
    simp [h a rfl]

theorem strip_ws_idem (l : List Char) : strip_ws (strip_ws l) = strip_ws l := by
  have hsw : ∀ m : List Char,
      strip_ws m = List.rdropWhile Char.isWhitespace (m.dropWhile Char.isWhitespace) :=
    fun m => rfl
  rw [hsw, hsw]
  have hdw : List.dropWhile Char.isWhitespace
      (List.rdropWhile Char.isWhitespace (l.dropWhile Char.isWhitespace)) =
      List.rdropWhile Char.isWhitespace (l.dropWhile Char.isWhitespace) := by
    apply dropWhile_eq_self_of_head
    intro c hc
    obtain ⟨t, ht⟩ :=
      List.rdropWhile_prefix Char.isWhitespace (l.dropWhile Char.isWhitespace)
    have hhead : (l.dropWhile Char.isWhitespace).head? = some c := by
      rw [← ht]
      cases hA : List.rdropWhile Char.isWhitespace (l.dropWhile Char.isWhitespace) with
      | nil => rw [hA] at hc; exact absurd hc (by simp)
      | cons a A2 =>
        rw [hA] at hc
        simpa using hc
    exact dropWhile_head_not Char.isWhitespace l hhead
  rw [hdw, List.rdropWhile_idempotent]

theorem py_strip_idem (s : String) : py_strip (py_strip s) = py_strip s := by
  show String.mk (strip_ws (strip_ws s.toList)) = String.mk (strip_ws s.toList)
  rw [strip_ws_idem]

theorem mem_of_mem_uniqueFirstAux {seen : List String} {l : List String} {a : String}
    (h : a ∈ uniqueFirstAux seen l) : a ∈ l := by
  induction l generalizing seen with
  | nil => exact absurd h (List.not_mem_nil a)
  | cons x xs ih =>
    rw [uniqueFirstAux] at h
    by_cases hx : x ∈ seen
    · rw [if_pos hx] at h
      exact List.mem_cons_of_mem x (ih h)
    · rw [if_neg hx] at h
      rcases List.mem_cons.1 h with h1 | h1
      · exact h1 ▸ List.mem_cons_self a xs
      · exact List.mem_cons_of_mem x (ih h1)

theorem uniqueFirstAux_not_mem_seen {seen : List String} {l : List String} {a : String}
    (h : a ∈ uniqueFirstAux seen l) : a ∉ seen := by
  induction l generalizing seen with
  | nil => exact absurd h (List.not_mem_nil a)
  | cons x xs ih =>
    rw [uniqueFirstAux] at h
    by_cases hx : x ∈ seen
    · rw [if_pos hx] at h
      exact ih h
    · rw [if_neg hx] at h
      rcases List.mem_cons.1 h with h1 | h1
      · exact h1 ▸ hx
      · intro hs
        exact (ih h1) (List.mem_cons_of_mem x hs)

theorem uniqueFirstAux_nodup (seen : List String) (l : List String) :
    (uniqueFirstAux seen l).Nodup := by
  induction l generalizing seen with
  | nil => exact List.nodup_nil
  | cons x xs ih =>
    rw [uniqueFirstAux]
    by_cases hx : x ∈ seen
    · rw [if_pos hx]
      exact ih seen
    · rw [if_neg hx]
      refine List.nodup_cons.2 ⟨?_, ih (x :: seen)⟩
      intro hmem
      exact (uniqueFirstAux_not_mem_seen hmem) (List.mem_cons_self x seen)

theorem uniqueFirst_nodup (l : List String) : (uniqueFirst l).Nodup :=
  uniqueFirstAux_nodup [] l

theorem sorted_lookup_list (l : List String) :
    (List.insertionSort (· ≤ ·) ((uniqueFirst l).filter (fun s => s ≠ ""))).Nodup ∧
    "" ∉ List.insertionSort (· ≤ ·) ((uniqueFirst l).filter (fun s => s ≠ "")) ∧
    List.Sorted (· ≤ ·) (List.insertionSort (· ≤ ·) ((uniqueFirst l).filter (fun s => s ≠ ""))) := by
  refine ⟨?_, ?_, List.sorted_insertionSort _ _⟩
  · exact ((List.perm_insertionSort _ _).symm).nodup ((uniqueFirst_nodup l).filter _)
  · intro hmem
    have h2 : ("" : String) ∈ (uniqueFirst l).filter (fun s => s ≠ "") :=
      (List.perm_insertionSort _ _).subset hmem
    have h3 := List.of_mem_filter h2
    simp at h3

/-- C4: the add-if-absent operations return true when the stripped name is
already present (exact case-sensitive match on stripped text) or was
successfully appended, return false only when the append fails, and two
successive successful calls with the same name leave exactly one matching
row when the sheet previously held at most one; the employee variant is the
same operation on its sheet. -/
theorem add_if_absent_spec (sheet : List String) (name : String) (writeOk : Bool) :
    (0 < count_matching sheet name →
      add_store_to_sheet sheet name writeOk = (true, sheet)) ∧
    (count_matching sheet name = 0 →
      add_store_to_sheet sheet name true = (true, sheet ++ [py_strip name])) ∧
    ((add_store_to_sheet sheet name writeOk).1 = false →
      writeOk = false ∧ count_matching sheet name = 0) ∧
    (count_matching
        (add_store_to_sheet (add_store_to_sheet sheet name true).2 name true).2 name =
      max (count_matching sheet name) 1) ∧
    (count_matching sheet name ≤ 1 →
      count_matching
        (add_store_to_sheet (add_store_to_sheet sheet name true).2 name true).2 name = 1) ∧
    (∀ store_name, add_employee_to_sheet sheet store_name name writeOk =
      add_store_to_sheet sheet name writeOk) := by
  have hp : ∀ s : List String,
      (s.any (fun r => py_strip r = py_strip name) = true) ↔
        0 < count_matching s name := by
    intro s
    simp [count_matching, List.any_eq_true, List.countP_pos_iff]
  have key : count_matching
      (add_store_to_sheet (add_store_to_sheet sheet name true).2 name true).2 name =
      max (count_matching sheet name) 1 := by
    by_cases hmem : sheet.any (fun r => py_strip r = py_strip name) = true
    · have hpos := (hp sheet).1 hmem
      simp only [add_store_to_sheet, if_pos hmem]
      omega
    · have h0 : count_matching sheet name = 0 := by
        rcases Nat.eq_zero_or_pos (count_matching sheet name) with h | h
        · exact h
        · exact absurd ((hp sheet).2 h) hmem
      have h1 : count_matching (sheet ++ [py_strip name]) name = 1 := by
        unfold count_matching at h0 ⊢
        rw [List.countP_append, h0]
        simp [py_strip_idem]
      have hmem2 : (sheet ++ [py_strip name]).any
          (fun r => py_strip r = py_strip name) = true :=
        (hp _).2 (by omega)
      simp only [add_store_to_sheet, hmem, if_false, if_true, Bool.false_eq_true,
        if_neg hmem]
      simp only [if_pos trivial, hmem2, if_true]
      simp only [add_store_to_sheet, hmem2, if_pos hmem2] at h1 ⊢
      omega
  refine ⟨?_, ?_, ?_, key, ?_, fun _ => rfl⟩
  · intro h
    have hmem := (hp sheet).2 h
    simp [add_store_to_sheet, hmem]
  · intro h0
    have hnm : ¬(sheet.any (fun r => py_strip r = py_strip name) = true) := by
      intro hm
      have := (hp sheet).1 hm
      omega
    simp [add_store_to_sheet, hnm]
  · intro hf
    by_cases hmem : sheet.any (fun r => py_strip r = py_strip name) = true
    · simp [add_store_to_sheet, hmem] at hf
    · cases writeOk with
      | true => simp [add_store_to_sheet, hmem] at hf
      | false =>
        refine ⟨rfl, ?_⟩
        rcases Nat.eq_zero_or_pos (count_matching sheet name) with h | h
        · exact h
        · exact absurd ((hp sheet).2 h) hmem
  · intro hle
    rw [key]
    omega

/-- Witness for `add_if_absent_spec`: two successful adds of "Acme Store" to
an empty store sheet leave exactly one matching row. -/
theorem add_if_absent_spec_witness :
    count_matching
      (add_store_to_sheet (add_store_to_sheet [] "Acme Store" true).2
        "Acme Store" true).2 "Acme Store" = 1 :=
  (add_if_absent_spec [] "Acme Store" true).2.2.2.2.1 (by decide)

/-- C5 counterexample: the list operation does not trim entries.  A store
sheet holding the single padded cell " Acme " is returned with the padding
intact, and that entry differs from its trimmed form. -/
theorem get_stores_not_trimmed :
    get_stores_from_store_sheet [" Acme "] = [" Acme "] ∧
    py_strip " Acme " = "Acme" ∧
    (" Acme " : String) ≠ "Acme" := by
  refine ⟨by decide, by decide, by decide⟩

/-- C5 amended: the list operation returns, for each lookup sheet, names that
are unique, non-empty and sorted ascending; entries are returned exactly as
stored in the sheet and are not re-trimmed. -/
theorem lookup_list_spec (storeRecords employeeRecords : List String) :
    (get_stores_from_store_sheet storeRecords).Nodup ∧
    "" ∉ get_stores_from_store_sheet storeRecords ∧
    List.Sorted (· ≤ ·) (get_stores_from_store_sheet storeRecords) ∧
    (get_employee_data storeRecords employeeRecords).1 =
      get_stores_from_store_sheet storeRecords ∧
    (get_employee_data storeRecords employeeRecords).2.Nodup ∧
    "" ∉ (get_employee_data storeRecords employeeRecords).2 ∧
    List.Sorted (· ≤ ·) (get_employee_data storeRecords employeeRecords).2 :=
  ⟨(sorted_lookup_list storeRecords).1,
   (sorted_lookup_list storeRecords).2.1,
   (sorted_lookup_list storeRecords).2.2,
   rfl,
   (sorted_lookup_list employeeRecords).1,
   (sorted_lookup_list employeeRecords).2.1,
   (sorted_lookup_list employeeRecords).2.2⟩

/-- Values of row 1 as gspread `row_values(1)` reports them: cells up to the
last non-empty one; an absent row or a row of entirely blank cells yields
the empty list. -/
def row_values_1 (rows : List (List String)) : List String :=
  List.rdropWhile (fun c => c.isEmpty) (rows.headD [])

/-- Expected ledger headers (app.py lines 347-351). -/
def main_expected_headers : List String :=
  ["Store_Name", "Employee_Name", "Date", "Before_Image_URL", "After_Image_URL",
   "Timestamp", "Status", "Notes"]

/-- Expected employee-lookup header (app.py line 380). -/
def employee_expected_headers : List String := ["Employee_Name"]

/-- Expected store-lookup header (app.py line 401). -/
def store_expected_headers : List String := ["Store_Name"]

/-- Per-sheet logic of `_ensure_sheet_structure` (app.py lines 343-423).
When row 1 reports no values, the sheet is cleared and the expected headers
appended, but only when the sheet is truly empty: `get_all_values` returns
no rows, or exactly one row all of whose cells are blank (lines 360-368).
When row 1 is non-empty, the sheet is left untouched whether or not its
headers match the expected ones; a mismatch only emits warnings
(lines 372-377).  Every failure path inside the source is caught and leaves
the sheet unchanged, so the function is total. -/
def ensure_sheet (rows : List (List String)) (expected : List String) :
    List (List String) :=
  let current_headers := row_values_1 rows
  if current_headers = [] then
    if rows = [] ∨ (rows.length = 1 ∧ (rows.headD []).all (fun c => c.isEmpty) = true) then
      [expected]
    else
      rows
  else
    rows

/-- Whole-spreadsheet schema guard `_ensure_sheet_structure`: the per-sheet
logic applied to the ledger, the employee lookup and the store lookup with
their expected header sets. -/
def ensure_sheet_structure (main employee store : List (List String)) :
    List (List String) × List (List String) × List (List String) :=
  (ensure_sheet main main_expected_headers,
   ensure_sheet employee employee_expected_headers,
   ensure_sheet store store_expected_headers)

/-- C3: ensure never changes a sheet whose header row is non-empty, even when
that header differs from the expected one; ensure is idempotent on every
sheet; the expected headers are written exactly when the sheet is entirely
empty, where one row of entirely blank cells counts as empty; and the
whole-spreadsheet guard is the per-sheet guard with the three expected
header sets.  The embedded function is total: the source catches every
exception in this routine and falls back to leaving data untouched. -/
theorem ensure_sheet_spec (rows : List (List String)) (expected : List String) :
    (row_values_1 rows ≠ [] → ensure_sheet rows expected = rows) ∧
    ensure_sheet (ensure_sheet rows expected) expected = ensure_sheet rows expected ∧
    (ensure_sheet rows expected ≠ rows →
      (rows = [] ∨ (rows.length = 1 ∧ (rows.headD []).all (fun c => c.isEmpty) = true)) ∧
      ensure_sheet rows expected = [expected]) ∧
    (rows = [] ∨ (rows.length = 1 ∧ (rows.headD []).all (fun c => c.isEmpty) = true) →
      ensure_sheet rows expected = [expected]) ∧
    (∀ main employee store, ensure_sheet_structure main employee store =
      (ensure_sheet main main_expected_headers,
       ensure_sheet employee employee_expected_headers,
       ensure_sheet store store_expected_headers)) := by
  have hpop : row_values_1 rows ≠ [] → ensure_sheet rows expected = rows := by
    intro h
    unfold ensure_sheet
    simp only [if_neg h]
  have hempty : rows = [] ∨ (rows.length = 1 ∧ (rows.headD []).all (fun c => c.isEmpty) = true) →
      ensure_sheet rows expected = [expected] := by
    intro h
    unfold ensure_sheet
    have h1 : row_values_1 rows = [] := by
      rcases h with h | ⟨hlen, hall⟩
      · rw [h]
        rfl
      · unfold row_values_1
        rw [List.rdropWhile_eq_nil_iff]
        intro x hx
        exact List.all_eq_true.1 hall x hx
    rw [if_pos h1, if_pos h]
  refine ⟨hpop, ?_, ?_, hempty, fun _ _ _ => rfl⟩
  · by_cases h1 : row_values_1 rows = []
    · by_cases h2 : rows = [] ∨ (rows.length = 1 ∧ (rows.headD []).all (fun c => c.isEmpty) = true)
      · have hr : ensure_sheet rows expected = [expected] := hempty h2
        rw [hr]
        by_cases h3 : row_values_1 [expected] = []
        · have h4 : expected.all (fun c => c.isEmpty) = true := by
            unfold row_values_1 at h3
            rw [List.rdropWhile_eq_nil_iff] at h3
            exact List.all_eq_true.2 (by simpa using h3)
          unfold ensure_sheet
          rw [if_pos h3, if_pos (Or.inr (by simpa using h4))]
        · unfold ensure_sheet
          simp only [if_neg h3]
      · have hr : ensure_sheet rows expected = rows := by
          unfold ensure_sheet
          rw [if_pos h1, if_neg h2]
        rw [hr, hr]
    · rw [hpop h1, hpop h1]
  · intro hne
    by_cases h1 : row_values_1 rows = []
    · by_cases h2 : rows = [] ∨ (rows.length = 1 ∧ (rows.headD []).all (fun c => c.isEmpty) = true)
      · exact ⟨h2, hempty h2⟩
      · exact absurd (by unfold ensure_sheet; rw [if_pos h1, if_neg h2]) hne
    · exact absurd (hpop h1) hne

/-- Witness for `ensure_sheet_spec`: a populated store sheet with a header
that differs from the expected one is left untouched, and a truly empty
sheet receives the expected header row. -/
theorem ensure_sheet_spec_witness :
    ensure_sheet [["Shop"], ["Acme"]] store_expected_headers = [["Shop"], ["Acme"]] ∧
    ensure_sheet [] store_expected_headers = [store_expected_headers] :=
  ⟨(ensure_sheet_spec [["Shop"], ["Acme"]] store_expected_headers).1 (by decide),
   (ensure_sheet_spec [] store_expected_headers).2.2.2.1 (Or.inl rfl)⟩

/-- Embedding of `_get_secret` (app.py lines 200-210).  One secret-store
access either yields the payload or raises; the except handler converts any
exception into a warning message and a None return, so nothing is ever
propagated as an error. -/
def _get_secret (secret_name : String) (raw : Except String String) :
    Option String × List String :=
  match raw with
  | Except.ok v => (some v, [])
  | Except.error e =>
    (none, ["Could not get " ++ secret_name ++ " from Secret Manager: " ++ e])

/-- External inputs of configuration resolution (app.py lines 212-259): the
three secret-store accesses, the three environment variables, and the local
credential file.  `env_creds` stands for a GOOGLE_CREDENTIALS value already
resolved through the JSON-or-file-path logic of lines 246-254; `file_creds`
stands for a readable local credentials.json (lines 257-259). -/
structure ConfigSources where
  secret_bucket : Except String String
  secret_spreadsheet : Except String String
  secret_creds : Except String String
  env_bucket : Option String
  env_spreadsheet : Option String
  env_creds : Option String
  file_creds : Option String

/-- Resolved configuration bundle. -/
structure ResolvedConfig where
  bucket_name : String
  spreadsheet_id : String
  creds : String

inductive SetupResult where
  | ok (config : ResolvedConfig)
  | configError (message : String)

/-- Python-truthiness fallback `if not x: x = y` (app.py lines 240-244). -/
def fallback (x y : Option String) : Option String :=
  if pyTruthy x then x else y

def resolved_bucket (src : ConfigSources) : Option String :=
  fallback (_get_secret "youposm-gcs-bucket" src.secret_bucket).1 src.env_bucket

def resolved_spreadsheet (src : ConfigSources) : Option String :=
  fallback (_get_secret "youposm-spreadsheet-id" src.secret_spreadsheet).1
    src.env_spreadsheet

def resolved_creds (src : ConfigSources) : Option String :=
  fallback (fallback (_get_secret "youposm-google-credentials" src.secret_creds).1
    src.env_creds) src.file_creds

/-- Configuration resolution of `_setup_connections` (app.py lines 212-272):
secret values with environment fallback, plus file fallback for the
credentials, then the three required-field checks at lines 262-272, each of
which returns before any client construction is attempted. -/
def resolve_config (src : ConfigSources) : SetupResult × List String :=
  let warnings := (_get_secret "youposm-gcs-bucket" src.secret_bucket).2 ++
    (_get_secret "youposm-spreadsheet-id" src.secret_spreadsheet).2 ++
    (_get_secret "youposm-google-credentials" src.secret_creds).2
  if pyTruthy (resolved_bucket src) = false then
    (SetupResult.configError
      "GCS bucket name not found in Secret Manager or environment variables",
     warnings)
  else if pyTruthy (resolved_spreadsheet src) = false then
    (SetupResult.configError
      "Spreadsheet ID not found in Secret Manager or environment variables",
     warnings)
  else if pyTruthy (resolved_creds src) = false then
    (SetupResult.configError
      "Google Cloud credentials not found in Secret Manager, environment variables, or credential files",
     warnings)
  else
    (SetupResult.ok
      ⟨(resolved_bucket src).getD "", (resolved_spreadsheet src).getD "",
       (resolved_creds src).getD ""⟩,
     warnings)

/-- Client-setup step of `_setup_connections` (app.py lines 274-337): reached
only when resolution succeeded; `sheetsOk` and `storageOk` abstract the two
independent client constructions, which set the two connectivity flags.  A
configuration error leaves both flags at their initial False (line 197). -/
def setup_connections (src : ConfigSources) (sheetsOk storageOk : Bool) :
    (Bool × Bool) × List String :=
  match resolve_config src with
  | (SetupResult.configError _, w) => ((false, false), w)
  | (SetupResult.ok _, w) => ((sheetsOk, storageOk), w)

/-- C9: a secret-store access failure becomes a warning and an absent value,
never an error; with every secret access failing, resolution falls through
to the environment variables and succeeds when they provide all three
fields, collecting the three warnings; credentials additionally fall back to
local credential files; and a required field missing from every source is a
terminal configuration error under which no client setup proceeds (both
connectivity flags stay False). -/
theorem resolve_config_spec (src : ConfigSources) :
    (∀ name e, _get_secret name (Except.error e) =
      (none, ["Could not get " ++ name ++ " from Secret Manager: " ++ e])) ∧
    (∀ eb es ec b s c, b ≠ "" → s ≠ "" → c ≠ "" →
      resolve_config ⟨Except.error eb, Except.error es, Except.error ec,
          some b, some s, some c, none⟩ =
        (SetupResult.ok ⟨b, s, c⟩,
         ["Could not get youposm-gcs-bucket from Secret Manager: " ++ eb,
          "Could not get youposm-spreadsheet-id from Secret Manager: " ++ es,
          "Could not get youposm-google-credentials from Secret Manager: " ++ ec])) ∧
    ((_get_secret "youposm-google-credentials" src.secret_creds).1 = none →
      src.env_creds = none → resolved_creds src = src.file_creds) ∧
    (pyTruthy (resolved_bucket src) = false ∨
        pyTruthy (resolved_spreadsheet src) = false ∨
        pyTruthy (resolved_creds src) = false →
      (∃ msg, (resolve_config src).1 = SetupResult.configError msg) ∧
      ∀ sheetsOk storageOk,
        (setup_connections src sheetsOk storageOk).1 = (false, false)) := by
  refine ⟨fun _ _ => rfl, ?_, ?_, ?_⟩
  · intro eb es ec b s c hb hs hc
    have hb2 : b.isEmpty = false := by
      cases hbe : b.isEmpty
      · rfl
      · exact absurd ((String.isEmpty_iff _).1 hbe) hb
    have hs2 : s.isEmpty = false := by
      cases hse : s.isEmpty
      · rfl
      · exact absurd ((String.isEmpty_iff _).1 hse) hs
    have hc2 : c.isEmpty = false := by
      cases hce : c.isEmpty
      · rfl
      · exact absurd ((String.isEmpty_iff _).1 hce) hc
    simp [resolve_config, resolved_bucket, resolved_spreadsheet, resolved_creds,
      fallback, _get_secret, pyTruthy, hb2, hs2, hc2]
  · intro h1 h2
    unfold resolved_creds
    rw [h1, h2]
    rfl
  · intro h
    have herr : ∃ msg, (resolve_config src).1 = SetupResult.configError msg := by
      unfold resolve_config
      rcases h with h | h | h
      · rw [if_pos h]
        exact ⟨_, rfl⟩
      · by_cases h1 : pyTruthy (resolved_bucket src) = false
        · rw [if_pos h1]
          exact ⟨_, rfl⟩
        · rw [if_neg h1, if_pos h]
          exact ⟨_, rfl⟩
      · by_cases h1 : pyTruthy (resolved_bucket src) = false
        · rw [if_pos h1]
          exact ⟨_, rfl⟩
        · by_cases h2 : pyTruthy (resolved_spreadsheet src) = false
          · rw [if_neg h1, if_pos h2]
            exact ⟨_, rfl⟩
          · rw [if_neg h1, if_neg h2, if_pos h]
            exact ⟨_, rfl⟩
    refine ⟨herr, ?_⟩
    intro sheetsOk storageOk
    obtain ⟨msg, hmsg⟩ := herr
    unfold setup_connections
    cases hrc : resolve_config src with
    | mk r w =>
      rw [hrc] at hmsg
      simp at hmsg
      rw [hmsg]

/-- Witness for `resolve_config_spec`: all secrets fail, the environment
provides everything, resolution succeeds with the environment values and
three warnings; and with no source at all the result is a configuration
error with both connectivity flags False. -/
theorem resolve_config_spec_witness :
    resolve_config ⟨Except.error "boom", Except.error "boom", Except.error "boom",
        some "my-bucket", some "sheet-id", some "cred-json", none⟩ =
      (SetupResult.ok ⟨"my-bucket", "sheet-id", "cred-json"⟩,
       ["Could not get youposm-gcs-bucket from Secret Manager: boom",
        "Could not get youposm-spreadsheet-id from Secret Manager: boom",
        "Could not get youposm-google-credentials from Secret Manager: boom"]) ∧
    (∃ msg, (resolve_config ⟨Except.error "boom", Except.error "boom",
        Except.error "boom", none, none, none, none⟩).1 =
      SetupResult.configError msg) :=
  ⟨(resolve_config_spec ⟨Except.error "boom", Except.error "boom", Except.error "boom",
      some "my-bucket", some "sheet-id", some "cred-json", none⟩).2.1
      "boom" "boom" "boom" "my-bucket" "sheet-id" "cred-json"
      (by decide) (by decide) (by decide),
   ((resolve_config_spec ⟨Except.error "boom", Except.error "boom", Except.error "boom",
      none, none, none, none⟩).2.2.2 (Or.inl (by decide))).1⟩

/-- C6: if either dimension exceeds 1920 the image is scaled down so that its
larger dimension is exactly 1920 and neither dimension grows; a 3840 by 2160
input becomes exactly 1920 by 1080; an image with both dimensions at most
1920 is kept unchanged (never upscaled). -/
theorem resize_dims_spec :
    resize_dims 3840 2160 = (1920, 1080) ∧
    resize_dims 800 600 = (800, 600) ∧
    (∀ w h, w ≤ 1920 → h ≤ 1920 → resize_dims w h = (w, h)) ∧
    (∀ w h, 1920 < w ∨ 1920 < h →
      max (resize_dims w h).1 (resize_dims w h).2 = 1920 ∧
      (resize_dims w h).1 ≤ w ∧ (resize_dims w h).2 ≤ h) := by
  refine ⟨by decide, by decide, ?_, ?_⟩
  · intro w h hw hh
    unfold resize_dims
    rw [if_neg (by omega)]
  · intro w h hbig
    unfold resize_dims
    rw [if_pos hbig]
    by_cases hlw : h < w
    · have hw : 1920 < w := by omega
      have hq : (1920 * h) / w ≤ 1920 := by
        calc (1920 * h) / w ≤ (1920 * w) / w :=
              Nat.div_le_div_right (Nat.mul_le_mul_left _ (le_of_lt hlw))
        _ = 1920 := Nat.mul_div_cancel _ (by omega)
      have hq2 : (1920 * h) / w ≤ h := by
        calc (1920 * h) / w ≤ (w * h) / w :=
              Nat.div_le_div_right (Nat.mul_le_mul_right _ (le_of_lt hw))
        _ = h := Nat.mul_div_cancel_left _ (by omega)
      simp only [if_pos hlw]
      refine ⟨by simpa using hq, by simpa using le_of_lt hw, by simpa using hq2⟩
    · have hh2 : 1920 < h := by omega
      have hq : (1920 * w) / h ≤ 1920 := by
        calc (1920 * w) / h ≤ (1920 * h) / h :=
              Nat.div_le_div_right (Nat.mul_le_mul_left _ (by omega))
        _ = 1920 := Nat.mul_div_cancel _ (by omega)
      have hq2 : (1920 * w) / h ≤ w := by
        calc (1920 * w) / h ≤ (h * w) / h :=
              Nat.div_le_div_right (Nat.mul_le_mul_right _ (le_of_lt hh2))
        _ = w := Nat.mul_div_cancel_left _ (by omega)
      simp only [if_neg hlw]
      refine ⟨by simpa using hq, by simpa using hq2, by simpa using le_of_lt hh2⟩

/-- Witness for `resize_dims_spec` at the concrete input 2500 by 2500. -/
theorem resize_dims_spec_witness :
    max (resize_dims 2500 2500).1 (resize_dims 2500 2500).2 = 1920 ∧
    (resize_dims 2500 2500).1 ≤ 2500 ∧ (resize_dims 2500 2500).2 ≤ 2500 :=
  resize_dims_spec.2.2.2 2500 2500 (Or.inl (by decide))

/-- C7: for every alphanumeric classifier — hence for the Unicode-aware one
Python `str.isalnum` implements — sanitization removes exactly the
characters outside alphanumerics, space, hyphen and underscore, trims, and
replaces the remaining spaces, so every character of a sanitized name is
alphanumeric per the classifier, a hyphen or an underscore; whenever the
classifier agrees with `Char.isAlphanum` on ASCII characters, as Python
does, "Acme #1 (East)" sanitizes to "Acme_1_East"; the storage key is
namespace, sanitized store, sanitized employee, ISO date, kind, and a
time-underscore-random-dot-jpg basename, joined by slashes; and the ASCII
instances used for the concrete traces are the specializations of these
definitions at `Char.isAlphanum`. -/
theorem clean_name_py_spec (isalnum : Char → Bool) :
    ((∀ c : Char, c.toNat ≤ 127 → isalnum c = c.isAlphanum) →
      clean_name_py isalnum "Acme #1 (East)" = "Acme_1_East") ∧
    (∀ store employee date_str img_type ts uid,
      upload_path_py isalnum store employee date_str img_type ts uid =
        "you-posm/" ++ clean_name_py isalnum store ++ "/" ++
          clean_name_py isalnum employee ++ "/" ++ date_str ++ "/" ++ img_type ++
          "/" ++ ts ++ "_" ++ uid ++ ".jpg") ∧
    (∀ s c, c ∈ (clean_name_py isalnum s).toList →
      isalnum c = true ∨ c = '-' ∨ c = '_') ∧
    clean_name = clean_name_py (fun c => c.isAlphanum) ∧
    upload_path = upload_path_py (fun c => c.isAlphanum) := by
  refine ⟨?_, fun _ _ _ _ _ _ => rfl, ?_, rfl, rfl⟩
  · intro hascii
    have hdec : "Acme #1 (East)".toList.all (fun c => c.toNat ≤ 127) = true := by
      decide
    have hfilter : "Acme #1 (East)".toList.filter (py_allowed_char isalnum) =
        "Acme #1 (East)".toList.filter (py_allowed_char (fun c => c.isAlphanum)) := by
      apply List.filter_congr
      intro c hc
      unfold py_allowed_char
      rw [hascii c (of_decide_eq_true (List.all_eq_true.1 hdec c hc))]
    show String.mk
        ((strip_ws ("Acme #1 (East)".toList.filter (py_allowed_char isalnum))).map
          (fun c => if c = ' ' then '_' else c)) = "Acme_1_East"
    rw [hfilter]
    decide
  · intro s c hc
    have hc2 : c ∈ (strip_ws (s.toList.filter (py_allowed_char isalnum))).map
        (fun c => if c = ' ' then '_' else c) := hc
    rcases List.mem_map.1 hc2 with ⟨c0, hc0, hstep⟩
    have hmem : c0 ∈ s.toList.filter (py_allowed_char isalnum) :=
      mem_of_mem_strip_ws hc0
    have hall : py_allowed_char isalnum c0 = true := List.of_mem_filter hmem
    unfold py_allowed_char at hall
    by_cases hsp : c0 = ' '
    · right; right
      rw [← hstep, if_pos hsp]
    · rw [← hstep, if_neg hsp]
      simp only [Bool.or_eq_true, decide_eq_true_eq] at hall
      rcases hall with ((ha | hs) | hd) | hu
      · exact Or.inl ha
      · exact absurd hs hsp
      · exact Or.inr (Or.inl hd)
      · exact Or.inr (Or.inr hu)

/-- Witness for `clean_name_py_spec` at the ASCII classifier, which agrees
with Python `str.isalnum` on every ASCII character. -/
theorem clean_name_py_spec_witness :
    clean_name_py (fun c => c.isAlphanum) "Acme #1 (East)" = "Acme_1_East" :=
  (clean_name_py_spec (fun c => c.isAlphanum)).1 (fun _ _ => rfl)

/-- C10: the all-disallowed store name "###" sanitizes to the empty string;
the derived storage key then contains an empty path segment (two consecutive
slashes), and the upload pipeline still proceeds under that key (no
rejection of such names anywhere in the pipeline). -/
theorem empty_segment_upload :
    clean_name "###" = "" ∧
    upload_path "###" "John" "2024-05-01" "before" "120000" "abcd1234" =
      "you-posm//John/2024-05-01/before/120000_abcd1234.jpg" ∧
    (splitSlash (upload_path "###" "John" "2024-05-01" "before" "120000"
      "abcd1234").toList).contains [] = true ∧
    upload_image true "mybucket" "###" "John" "before" "2024-05-01" "120000"
      "abcd1234" true =
      some "https://storage.googleapis.com/mybucket/you-posm//John/2024-05-01/before/120000_abcd1234.jpg" := by
  refine ⟨by decide, by decide, by decide, by decide⟩

/-- Form inputs of one submission (app.py lines 678-753).  The image fields
carry the uploaded files (their pixel dimensions) or nothing, matching the
Python truthiness test on the file objects. -/
structure Submission where
  store_name : String
  employee_name : String
  is_new_store : Bool
  is_new_employee : Bool
  entry_date : String
  out_of_stock : Bool
  notes : String
  before_image : Option (Nat × Nat)
  after_image : Option (Nat × Nat)

/-- Outcomes of the external calls a submission makes: the two lookup-sheet
appends, the two image uploads (URL or nothing, per `upload_image`), the
ledger append, and the server timestamp taken at write time. -/
structure Backend where
  add_store_ok : Bool
  add_employee_ok : Bool
  before_url : Option String
  after_url : Option String
  save_ok : Bool
  timestamp : String

/-- Persistent state a submission can touch: the ledger rows, the two lookup
sheets, and the object-store keys. -/
structure AppState where
  ledger : List (List String)
  store_sheet : List String
  employee_sheet : List String
  objects : List String

/-- Validation of `main` (app.py lines 756-765): each missing field appends
its message; nothing returns early, so all problems are collected. -/
def validation_errors (sub : Submission) : List String :=
  (if (py_strip sub.store_name).isEmpty then ["Store name is required"] else []) ++
  (if (py_strip sub.employee_name).isEmpty then ["Employee name is required"] else []) ++
  (if sub.before_image.isNone then ["Before image is required"] else []) ++
  (if sub.after_image.isNone then ["After image is required"] else [])

/-- Notes-column value (app.py line 806):
`"Out of Stock" if out_of_stock else (notes.strip() if notes else "")`. -/
def final_notes (out_of_stock : Bool) (notes : String) : String :=
  if out_of_stock then "Out of Stock"
  else if notes.isEmpty then "" else py_strip notes

/-- VisitRecord fields as assembled at app.py lines 809-818. -/
structure VisitData where
  store_name : String
  employee_name : String
  date : String
  before_image_url : String
  after_image_url : String
  timestamp : String
  status : String
  notes : String

/-- Fixed column order of a ledger row (app.py lines 615-624). -/
def visit_row (d : VisitData) : List String :=
  [d.store_name, d.employee_name, d.date, d.before_image_url,
   d.after_image_url, d.timestamp, d.status, d.notes]

/-- Embedding of `save_data` (app.py lines 607-631): append one row;
`writeOk` is the outcome of `append_row` (an exception or a missing
worksheet yields False with the ledger unchanged). -/
def save_data (ledger : List (List String)) (d : VisitData) (writeOk : Bool) :
    Bool × List (List String) :=
  if writeOk then (true, ledger ++ [visit_row d]) else (false, ledger)

inductive SubmitOutcome where
  | validationFailed (errors : List String)
  | storeAddFailed
  | employeeAddFailed
  | uploadFailed
  | saveFailed
  | success
deriving DecidableEq

/-- Submission workflow of `main` (app.py lines 755-860): batch validation;
on any error, stop with no writes.  Otherwise optionally add the new store
and the new employee, stopping on failure; then both uploads run (each
successful upload stores its object); the ledger row is written only when
both upload results are truthy (line 804), with status always "Visited". -/
def process_submission (s : AppState) (sub : Submission) (bk : Backend) :
    AppState × SubmitOutcome :=
  let errors := validation_errors sub
  if errors ≠ [] then
    (s, SubmitOutcome.validationFailed errors)
  else
    let storeStep := if sub.is_new_store then
        add_store_to_sheet s.store_sheet sub.store_name bk.add_store_ok
      else (true, s.store_sheet)
    if storeStep.1 = false then
      ({ s with store_sheet := storeStep.2 }, SubmitOutcome.storeAddFailed)
    else
      let employeeStep := if sub.is_new_employee then
          add_employee_to_sheet s.employee_sheet sub.store_name sub.employee_name
            bk.add_employee_ok
        else (true, s.employee_sheet)
      if employeeStep.1 = false then
        ({ s with store_sheet := storeStep.2, employee_sheet := employeeStep.2 },
         SubmitOutcome.employeeAddFailed)
      else
        let s1 : AppState :=
          { ledger := s.ledger, store_sheet := storeStep.2,
            employee_sheet := employeeStep.2,
            objects := s.objects ++ bk.before_url.toList ++ bk.after_url.toList }
        if pyTruthy bk.before_url && pyTruthy bk.after_url then
          let d : VisitData :=
            { store_name := py_strip sub.store_name,
              employee_name := py_strip sub.employee_name,
              date := sub.entry_date,
              before_image_url := bk.before_url.getD "",
              after_image_url := bk.after_url.getD "",
              timestamp := bk.timestamp,
              status := "Visited",
              notes := final_notes sub.out_of_stock sub.notes }
          let saved := save_data s.ledger d bk.save_ok
          if saved.1 then ({ s1 with ledger := saved.2 }, SubmitOutcome.success)
          else ({ s1 with ledger := saved.2 }, SubmitOutcome.saveFailed)
        else
          (s1, SubmitOutcome.uploadFailed)

theorem pyTruthy_getD {o : Option String} (h : pyTruthy o = true) :
    o.getD "" ≠ "" := by
  cases o with
  | none => exact absurd h (by simp [pyTruthy])
  | some v =>
    intro hv
    rw [Option.getD_some] at hv
    rw [hv] at h
    exact absurd h (by decide)

theorem process_submission_cases (s : AppState) (sub : Submission) (bk : Backend) :
    ((process_submission s sub bk).2 = SubmitOutcome.success ∧
      pyTruthy bk.before_url = true ∧ pyTruthy bk.after_url = true ∧
      (process_submission s sub bk).1.ledger = s.ledger ++
        [[py_strip sub.store_name, py_strip sub.employee_name, sub.entry_date,
          bk.before_url.getD "", bk.after_url.getD "", bk.timestamp, "Visited",
          final_notes sub.out_of_stock sub.notes]]) ∨
    ((process_submission s sub bk).2 ≠ SubmitOutcome.success ∧
      (process_submission s sub bk).1.ledger = s.ledger) := by
  unfold process_submission
  by_cases h1 : validation_errors sub ≠ []
  · right
    simp only [if_pos h1]
    exact ⟨by simp, by trivial⟩
  · simp only [if_neg h1]
    by_cases h2 : (if sub.is_new_store then
        add_store_to_sheet s.store_sheet sub.store_name bk.add_store_ok
      else (true, s.store_sheet)).1 = false
    · right
      simp only [if_pos h2]
      exact ⟨by simp, by trivial⟩
    · simp only [if_neg h2]
      by_cases h3 : (if sub.is_new_employee then
          add_employee_to_sheet s.employee_sheet sub.store_name sub.employee_name
            bk.add_employee_ok
        else (true, s.employee_sheet)).1 = false
      · right
        simp only [if_pos h3]
        exact ⟨by simp, by trivial⟩
      · simp only [if_neg h3]
        by_cases h4 : (pyTruthy bk.before_url && pyTruthy bk.after_url) = true
        · simp only [h4, if_true]
          cases h5 : bk.save_ok
          · right
            simp only [save_data, h5, Bool.false_eq_true, if_false]
            exact ⟨by simp, by trivial⟩
          · left
            simp only [save_data, h5, if_true]
            simp only [Bool.and_eq_true] at h4
            exact ⟨by trivial, h4.1, h4.2, by trivial⟩
        · right
          simp only [h4, Bool.false_eq_true, if_false]
          exact ⟨by simp, by trivial⟩

/-- C1: a successful submission appends exactly one row to the ledger, with
both URL columns non-empty; when either upload returns no URL the ledger is
unchanged and the outcome is not success; and on every non-success outcome
the ledger is unchanged, so no partial VisitRecord is ever persisted. -/
theorem submission_ledger_spec (s : AppState) (sub : Submission) (bk : Backend) :
    ((process_submission s sub bk).2 = SubmitOutcome.success →
      (process_submission s sub bk).1.ledger = s.ledger ++
        [[py_strip sub.store_name, py_strip sub.employee_name, sub.entry_date,
          bk.before_url.getD "", bk.after_url.getD "", bk.timestamp, "Visited",
          final_notes sub.out_of_stock sub.notes]] ∧
      bk.before_url.getD "" ≠ "" ∧ bk.after_url.getD "" ≠ "") ∧
    (bk.before_url = none ∨ bk.after_url = none →
      (process_submission s sub bk).1.ledger = s.ledger ∧
      (process_submission s sub bk).2 ≠ SubmitOutcome.success) ∧
    ((process_submission s sub bk).2 ≠ SubmitOutcome.success →
      (process_submission s sub bk).1.ledger = s.ledger) := by
  rcases process_submission_cases s sub bk with
    ⟨hs, hb, ha, hl⟩ | ⟨hns, hl⟩
  · refine ⟨fun _ => ⟨hl, pyTruthy_getD hb, pyTruthy_getD ha⟩, ?_, fun hn => absurd hs hn⟩
    intro hnone
    rcases hnone with hn | hn
    · rw [hn] at hb
      exact absurd hb (by simp [pyTruthy])
    · rw [hn] at ha
      exact absurd ha (by simp [pyTruthy])
  · exact ⟨fun hsucc => absurd hsucc hns, fun _ => ⟨hl, hns⟩, fun _ => hl⟩

/-- Witness for `submission_ledger_spec`: a concrete valid submission with
both uploads succeeding appends exactly the expected row. -/
theorem submission_ledger_spec_witness :
    (process_submission ⟨[], [], [], []⟩
        ⟨"New Mart", "Jane Doe", true, true, "2024-05-01", false, "Shelf restocked",
          some (800, 600), some (800, 600)⟩
        ⟨true, true, some "u1", some "u2", true, "2024-05-01 10:00:00"⟩).1.ledger =
      ([] : List (List String)) ++
        [["New Mart", "Jane Doe", "2024-05-01", "u1", "u2", "2024-05-01 10:00:00",
          "Visited", "Shelf restocked"]] ∧
    ("u1" : String) ≠ "" ∧ ("u2" : String) ≠ "" :=
  (submission_ledger_spec ⟨[], [], [], []⟩
    ⟨"New Mart", "Jane Doe", true, true, "2024-05-01", false, "Shelf restocked",
      some (800, 600), some (800, 600)⟩
    ⟨true, true, some "u1", some "u2", true, "2024-05-01 10:00:00"⟩).1 (by decide)

/-- C2: every missing field contributes its message to the batched error
list and every message in the list corresponds to a missing field; when any
error was collected, the submission stops with the full batch and performs
zero writes: the ledger, both lookup sheets and the object store are
returned exactly as they were. -/
theorem validation_batch_spec (s : AppState) (sub : Submission) (bk : Backend) :
    ("Store name is required" ∈ validation_errors sub ↔
      (py_strip sub.store_name).isEmpty = true) ∧
    ("Employee name is required" ∈ validation_errors sub ↔
      (py_strip sub.employee_name).isEmpty = true) ∧
    ("Before image is required" ∈ validation_errors sub ↔
      sub.before_image.isNone = true) ∧
    ("After image is required" ∈ validation_errors sub ↔
      sub.after_image.isNone = true) ∧
    (validation_errors sub ≠ [] →
      process_submission s sub bk =
        (s, SubmitOutcome.validationFailed (validation_errors sub))) := by
  refine ⟨?_, ?_, ?_, ?_, ?_⟩
  · unfold validation_errors
    by_cases h1 : (py_strip sub.store_name).isEmpty = true <;>
      by_cases h3 : sub.before_image.isNone = true <;>
      by_cases h4 : sub.after_image.isNone = true <;>
      by_cases h2 : (py_strip sub.employee_name).isEmpty = true <;>
      simp [h1, h2, h3, h4]
  · unfold validation_errors
    by_cases h1 : (py_strip sub.store_name).isEmpty = true <;>
      by_cases h3 : sub.before_image.isNone = true <;>
      by_cases h4 : sub.after_image.isNone = true <;>
      by_cases h2 : (py_strip sub.employee_name).isEmpty = true <;>
      simp [h1, h2, h3, h4]
  · unfold validation_errors
    by_cases h1 : (py_strip sub.store_name).isEmpty = true <;>
      by_cases h3 : sub.before_image.isNone = true <;>
      by_cases h4 : sub.after_image.isNone = true <;>
      by_cases h2 : (py_strip sub.employee_name).isEmpty = true <;>
      simp [h1, h2, h3, h4]
  · unfold validation_errors
    by_cases h1 : (py_strip sub.store_name).isEmpty = true <;>
      by_cases h3 : sub.before_image.isNone = true <;>
      by_cases h4 : sub.after_image.isNone = true <;>
      by_cases h2 : (py_strip sub.employee_name).isEmpty = true <;>
      simp [h1, h2, h3, h4]
  · intro h
    unfold process_submission
    simp only [if_pos h]

/-- Witness for `validation_batch_spec`: a submission missing all four
fields reports all four messages in one batch and leaves the state exactly
as it was. -/
theorem validation_batch_spec_witness :
    process_submission ⟨[["x"]], ["A"], ["B"], ["o"]⟩
        ⟨"", "  ", false, false, "2024-05-01", false, "", none, none⟩
        ⟨true, true, some "u", some "v", true, "t"⟩ =
      (⟨[["x"]], ["A"], ["B"], ["o"]⟩,
       SubmitOutcome.validationFailed
        ["Store name is required", "Employee name is required",
         "Before image is required", "After image is required"]) := by
  have h := (validation_batch_spec ⟨[["x"]], ["A"], ["B"], ["o"]⟩
    ⟨"", "  ", false, false, "2024-05-01", false, "", none, none⟩
    ⟨true, true, some "u", some "v", true, "t"⟩).2.2.2.2 (by decide)
  exact h.trans rfl

/-- C8: every persisted row carries status "Visited" in the status column,
and with the out-of-stock flag set the notes column is exactly
"Out of Stock", whatever note text was typed. -/
theorem status_notes_spec (s : AppState) (sub : Submission) (bk : Backend) :
    ((process_submission s sub bk).2 = SubmitOutcome.success →
      (process_submission s sub bk).1.ledger = s.ledger ++
        [[py_strip sub.store_name, py_strip sub.employee_name, sub.entry_date,
          bk.before_url.getD "", bk.after_url.getD "", bk.timestamp, "Visited",
          final_notes sub.out_of_stock sub.notes]] ∧
      [py_strip sub.store_name, py_strip sub.employee_name, sub.entry_date,
          bk.before_url.getD "", bk.after_url.getD "", bk.timestamp, "Visited",
          final_notes sub.out_of_stock sub.notes].get? 6 = some "Visited" ∧
      (sub.out_of_stock = true →
        final_notes sub.out_of_stock sub.notes = "Out of Stock")) ∧
    (∀ notes, final_notes true notes = "Out of Stock") := by
  refine ⟨?_, fun _ => rfl⟩
  intro hsucc
  rcases process_submission_cases s sub bk with ⟨_, _, _, hl⟩ | ⟨hns, _⟩
  · refine ⟨hl, rfl, ?_⟩
    intro hoos
    unfold final_notes
    rw [hoos, if_pos rfl]
  · exact absurd hsucc hns

/-- Witness for `status_notes_spec`: an out-of-stock submission with typed
note text is recorded with status "Visited" and notes "Out of Stock". -/
theorem status_notes_spec_witness :
    (process_submission ⟨[], [], [], []⟩
        ⟨"New Mart", "Jane Doe", false, false, "2024-05-01", true, "typed text",
          some (800, 600), some (800, 600)⟩
        ⟨true, true, some "u1", some "u2", true, "ts"⟩).1.ledger =
      ([] : List (List String)) ++
        [["New Mart", "Jane Doe", "2024-05-01", "u1", "u2", "ts", "Visited",
          "Out of Stock"]] ∧
    (["New Mart", "Jane Doe", "2024-05-01", "u1", "u2", "ts", "Visited",
      "Out of Stock"] : List String).get? 6 = some "Visited" ∧
    (true = true → ("Out of Stock" : String) = "Out of Stock") :=
  (status_notes_spec ⟨[], [], [], []⟩
    ⟨"New Mart", "Jane Doe", false, false, "2024-05-01", true, "typed text",
      some (800, 600), some (800, 600)⟩
    ⟨true, true, some "u1", some "u2", true, "ts"⟩).1 (by decide)

end YouPosm
